import Mathlib

/-!
# Verification of `src/components/SyncSettings.tsx` (rusty-notes-webapp)

Shallow embedding of the `SyncSettings` React component: its local state,
the stored `SyncSettings` structure, and the event handlers
(`handleAddServer`, `handleRemoveServer`, `handleServerChange`,
`saveSettings`, `handleSync`, the seed-phrase `onChange`, and the
Sync-Now button guard).

Modelling conventions:
- React `useState` fields become a `ComponentState` record; a handler is a
  pure function from the state (the values captured by the handler's
  closure) to the updated state plus a trace of observable effects.
- External async calls (`WebStorageService.initializeCrypto`,
  `ApiService.healthCheck`, `WebStorageService.syncWithServer`,
  `WebStorageService.saveSyncSettings`, the `onSync` prop) are resolved by
  a `SyncEnv` oracle: each entry is `Except JsThrown α`, `Except.error`
  meaning the awaited call threw.  The trace records each invocation and
  each `notifications.show` call.
- The WHATWG `new URL(url)` constructor is a browser builtin, not code of
  this repository; its acceptance predicate is a parameter
  `urlOk : String → Bool` ("the string parses as a well-formed absolute
  URL") threaded into `validateUrl`.
-/

/-- Structure `SyncSettingsType` (imported from `../types/sync`): the stored
settings object that `WebStorageService.getSyncSettings` returns and
`saveSyncSettings` persists. -/
structure SyncSettingsType where
  auto_sync : Bool
  server_url : String
  custom_servers : List String
  seed_phrase : String
  sync_interval : Nat
deriving Repr, DecidableEq

/-- A partial update (`Partial<SyncSettingsType>`) as passed to
`saveSettings`; `some v` models a field present in the object literal.
`sync_interval` is never passed by any caller in the component, and
`saveSettings` ignores it, so it is omitted. -/
structure SettingsUpdate where
  auto_sync : Option Bool := none
  server_url : Option String := none
  custom_servers : Option (List String) := none
  seed_phrase : Option String := none
deriving Repr, DecidableEq

/-- The component's `useState` fields (lines 33-42) relevant to the
handlers under verification. -/
structure ComponentState where
  seedPhrase : String
  autoSync : Bool
  syncing : Bool
  selectedServer : String
  customServers : List String
  newServerUrl : String
  showAddServer : Bool
  isValidUrl : Bool
deriving Repr, DecidableEq

/-- Constant `DEFAULT_SERVERS` (lines 23-26): label/value pairs. -/
def DEFAULT_SERVERS : List (String × String) :=
  [("Official Server", "https://notes-sync.0xgingi.com"),
   ("Local Server", "http://localhost:3222")]

/-- The `value` components of `DEFAULT_SERVERS`, as consulted by
`DEFAULT_SERVERS.some(s => s.value === ...)` and the invariant. -/
def defaultServerValues : List String := DEFAULT_SERVERS.map Prod.snd

/-- Function `validateUrl` (lines 44-51): `try { new URL(url); return true } catch
{ return false }`.  `urlOk` is the platform URL parser's acceptance. -/
def validateUrl (urlOk : String → Bool) (url : String) : Bool := urlOk url

/-- Handler `handleUrlChange` (lines 53-56): records the typed string and caches
its validity in `isValidUrl`. -/
def handleUrlChange (urlOk : String → Bool) (value : String)
    (st : ComponentState) : ComponentState :=
  { st with newServerUrl := value, isValidUrl := validateUrl urlOk value }

/-- The object `saveSettings` (lines 82-100) builds and hands to
`WebStorageService.saveSyncSettings`: each field present in `updates` wins,
each absent field is taken from the component state captured by the
handler's closure, and `sync_interval` is copied from the stored
settings just read back. -/
def mergeSettings (st : ComponentState) (stored : SyncSettingsType)
    (u : SettingsUpdate) : SyncSettingsType :=
  { auto_sync := match u.auto_sync with
      | some v => v
      | none => st.autoSync
    server_url := match u.server_url with
      | some v => v
      | none => st.selectedServer
    custom_servers := match u.custom_servers with
      | some v => v
      | none => st.customServers
    seed_phrase := match u.seed_phrase with
      | some v => v
      | none => st.seedPhrase
    sync_interval := stored.sync_interval }

/-- A value thrown by an awaited call: either a JS `Error` carrying a
message, or any non-`Error` thrown value (relevant to the
`error instanceof Error` test in `handleSync`'s catch block). -/
inductive JsThrown where
  | jsError (msg : String)
  | nonError
deriving Repr, DecidableEq

/-- Observable effects of the handlers: external service invocations and
`notifications.show` calls. -/
inductive Event where
  | initCrypto (seed : String)
  | healthCheckCall (server : String)
  | syncWithServerCall (server : String)
  | saveSeedCall (seed : String)
  | onSyncCall
  | notifySuccess (title msg : String)
  | notifyError (title msg : String)
deriving Repr, DecidableEq

instance {ε α : Type} [DecidableEq ε] [DecidableEq α] :
    DecidableEq (Except ε α) := fun x y =>
  match x, y with
  | .ok a, .ok b =>
    if h : a = b then isTrue (by rw [h]) else isFalse (by simp [h])
  | .ok _, .error _ => isFalse (by simp)
  | .error _, .ok _ => isFalse (by simp)
  | .error e, .error f =>
    if h : e = f then isTrue (by rw [h]) else isFalse (by simp [h])

/-- Oracle resolving the awaited calls inside `handleSync`'s try block.
`onSync` is `none` when the optional `onSync` prop was not provided. -/
structure SyncEnv where
  initCryptoRes : Except JsThrown Unit
  healthRes : Except JsThrown Bool
  syncRes : Except JsThrown Unit
  saveRes : Except JsThrown Unit
  onSync : Option (Except JsThrown Unit)
deriving Repr, DecidableEq

/-- The try block of `handleSync` (lines 172-202), from
`initializeCrypto` through the success notification: returns the trace of
invocations plus `some e` when a call threw `e` (control jumps to the
catch block) or `none` on success. -/
def syncBody (st : ComponentState) (env : SyncEnv) :
    List Event × Option JsThrown :=
  let e0 := [Event.initCrypto st.seedPhrase]
  match env.initCryptoRes with
  | .error e => (e0, some e)
  | .ok _ =>
    let e1 := e0 ++ [Event.healthCheckCall st.selectedServer]
    match env.healthRes with
    | .error e => (e1, some e)
    | .ok healthy =>
      if healthy then
        let e2 := e1 ++ [Event.syncWithServerCall st.selectedServer]
        match env.syncRes with
        | .error e => (e2, some e)
        | .ok _ =>
          let e3 := e2 ++ [Event.saveSeedCall st.seedPhrase]
          match env.saveRes with
          | .error e => (e3, some e)
          | .ok _ =>
            match env.onSync with
            | none =>
              (e3 ++ [Event.notifySuccess "Success" "Notes synced successfully"],
               none)
            | some (.error e) => (e3 ++ [Event.onSyncCall], some e)
            | some (.ok _) =>
              (e3 ++ [Event.onSyncCall,
                      Event.notifySuccess "Success" "Notes synced successfully"],
               none)
      else
        (e1, some (JsThrown.jsError
          ("Server " ++ st.selectedServer ++ " is not healthy")))

/-- The catch block's notification message (line 207):
`error instanceof Error ? error.message : 'Failed to sync notes'`. -/
def syncErrorMessage : JsThrown → String
  | .jsError msg => msg
  | .nonError => "Failed to sync notes"

/-- Handler `handleSync` (lines 161-214): guard on an empty seed phrase, then
`setSyncing(true)`, the try block, the catch block's error notification,
and the finally block's `setSyncing(false)`. -/
def handleSync (st : ComponentState) (env : SyncEnv) :
    List Event × ComponentState :=
  if st.seedPhrase = "" then
    ([Event.notifyError "Error" "Please enter a seed phrase"], st)
  else
    let st1 := { st with syncing := true }
    let body := syncBody st1 env
    let evs := match body.2 with
      | none => body.1
      | some e => body.1 ++ [Event.notifyError "Error" (syncErrorMessage e)]
    (evs, { st1 with syncing := false })

/-- The Sync Now button (lines 292-297): `loading={syncing}`, and a
Mantine button in the loading state is disabled, so a click reaches
`handleSync` only when `syncing` is false.  State updates inside a click
handler are modelled as taking effect before the next click is processed
(JS run-to-completion plus React flushing the discrete-event render). -/
def clickSyncNow (st : ComponentState) (env : SyncEnv) :
    List Event × ComponentState :=
  if st.syncing then ([], st) else handleSync st env

/-- Handler `handleAddServer` (lines 102-140): returns the new component state,
the notification trace, and the settings object persisted via
`saveSettings` (`none` when rejected, so nothing is persisted). -/
def handleAddServer (st : ComponentState) (stored : SyncSettingsType) :
    ComponentState × List Event × Option SyncSettingsType :=
  if st.isValidUrl = false then (st, [], none)
  else if st.customServers.contains st.newServerUrl
       || defaultServerValues.contains st.newServerUrl then
    (st, [Event.notifyError "Error" "Server already exists"], none)
  else
    let updatedServers := st.customServers ++ [st.newServerUrl]
    ({ st with customServers := updatedServers,
               selectedServer := st.newServerUrl,
               newServerUrl := "",
               showAddServer := false },
     [Event.notifySuccess "Success" "Server added successfully"],
     some (mergeSettings st stored
       { custom_servers := some updatedServers,
         server_url := some st.newServerUrl }))

/-- Handler `handleRemoveServer` (lines 142-152): filters the URL out of
`customServers`, persists, and if the removed URL was selected, selects
`DEFAULT_SERVERS[0].value` and persists again.  Both `saveSettings` calls
read the closure's (pre-handler) state `st`, so the second persisted
object carries the stale `customServers`. -/
def handleRemoveServer (st : ComponentState) (stored : SyncSettingsType)
    (serverUrl : String) : ComponentState × List SyncSettingsType :=
  let updatedServers := st.customServers.filter (fun url => url ≠ serverUrl)
  let save1 := mergeSettings st stored { custom_servers := some updatedServers }
  if st.selectedServer = serverUrl then
    let newServer := (DEFAULT_SERVERS.headD ("", "")).2
    ({ st with customServers := updatedServers, selectedServer := newServer },
     [save1, mergeSettings st stored { server_url := some newServer }])
  else
    ({ st with customServers := updatedServers }, [save1])

/-- Handler `handleServerChange` (lines 154-159): a `null` value is ignored,
otherwise the selection is updated and persisted. -/
def handleServerChange (st : ComponentState) (stored : SyncSettingsType)
    (value : Option String) : ComponentState × Option SyncSettingsType :=
  match value with
  | none => (st, none)
  | some v =>
    ({ st with selectedServer := v },
     some (mergeSettings st stored { server_url := some v }))

/-- The values offered by the Sync Server `Select` (lines 239-271):
`serverOptions = DEFAULT_SERVERS ++ customServers`, so `handleServerChange`
is only ever invoked with a member of this list. -/
def serverOptionValues (st : ComponentState) : List String :=
  defaultServerValues ++ st.customServers

/-- The seed-phrase `PasswordInput`'s `onChange` (lines 281-289):
`setSeedPhrase(v)` then `saveSettings({ seed_phrase: v })`.  Returns the
updated component state and the settings object persisted. -/
def onSeedPhraseChange (st : ComponentState) (stored : SyncSettingsType)
    (v : String) : ComponentState × SyncSettingsType :=
  ({ st with seedPhrase := v },
   mergeSettings st stored { seed_phrase := some v })

/-- Spec §3 invariant on the component state: the selected server URL is a
default or a member of the custom-server set. -/
def serverInvariant (st : ComponentState) : Prop :=
  st.selectedServer ∈ defaultServerValues ∨ st.selectedServer ∈ st.customServers

instance (st : ComponentState) : Decidable (serverInvariant st) := by
  unfold serverInvariant; infer_instance

/-- The three operations of claim C1, with `handleServerChange`'s argument
as delivered by the `Select`. -/
inductive SettingsOp where
  | addServer
  | removeServer (url : String)
  | changeServer (value : Option String)
deriving Repr, DecidableEq

/-- Apply one of the three operations to the component state (the stored
settings only feed the persisted objects, not the in-memory state). -/
def applyOp (st : ComponentState) (stored : SyncSettingsType) :
    SettingsOp → ComponentState
  | .addServer => (handleAddServer st stored).1
  | .removeServer url => (handleRemoveServer st stored url).1
  | .changeServer value => (handleServerChange st stored value).1

/-- Precondition the UI establishes: the `Select` only emits values from
its `data` list, so `handleServerChange` receives a member of
`serverOptionValues`; the other handlers need nothing. -/
def opOk (st : ComponentState) : SettingsOp → Prop
  | .changeServer (some v) => v ∈ serverOptionValues st
  | _ => True

instance (st : ComponentState) (op : SettingsOp) : Decidable (opOk st op) := by
  unfold opOk; cases op with
  | addServer => infer_instance
  | removeServer _ => infer_instance
  | changeServer v => cases v <;> infer_instance

/-! ## Fixture states for witnesses -/

/-- A quiescent component state: official server selected, no custom
servers, empty inputs. -/
def st0 : ComponentState :=
  { seedPhrase := "", autoSync := false, syncing := false,
    selectedServer := "https://notes-sync.0xgingi.com",
    customServers := [], newServerUrl := "",
    showAddServer := false, isValidUrl := false }

/-- Stored settings matching `st0`, with a 5-minute sync interval. -/
def stored0 : SyncSettingsType :=
  { auto_sync := false, server_url := "https://notes-sync.0xgingi.com",
    custom_servers := [], seed_phrase := "", sync_interval := 300 }

/-- An environment in which every awaited call succeeds and the server is
healthy; no `onSync` prop. -/
def envOk : SyncEnv :=
  { initCryptoRes := Except.ok (), healthRes := Except.ok true,
    syncRes := Except.ok (), saveRes := Except.ok (), onSync := none }

/-! ## Theorems -/

/-- C4: for every partial settings update, the object `saveSettings`
persists takes, for each of `auto_sync`, `server_url`, `custom_servers`
and `seed_phrase`, the update's value when the field is named in the
update and the component's current value otherwise, while `sync_interval`
is always carried over from the stored settings. -/
theorem C4_save_settings_merges_updates (st : ComponentState)
    (stored : SyncSettingsType) (u : SettingsUpdate) :
    (mergeSettings st stored u).auto_sync = u.auto_sync.getD st.autoSync ∧
    (mergeSettings st stored u).server_url = u.server_url.getD st.selectedServer ∧
    (mergeSettings st stored u).custom_servers = u.custom_servers.getD st.customServers ∧
    (mergeSettings st stored u).seed_phrase = u.seed_phrase.getD st.seedPhrase ∧
    (mergeSettings st stored u).sync_interval = stored.sync_interval := by
  refine ⟨?_, ?_, ?_, ?_, rfl⟩
  · cases h : u.auto_sync <;> simp [mergeSettings, h]
  · cases h : u.server_url <;> simp [mergeSettings, h]
  · cases h : u.custom_servers <;> simp [mergeSettings, h]
  · cases h : u.seed_phrase <;> simp [mergeSettings, h]

/-- C7: clicking Sync Now while a sync cycle is in progress is rejected:
the Mantine button is disabled by `loading={syncing}`, so the click
produces no events and leaves the state unchanged — a second cycle is
never started, let alone interleaved. -/
theorem C7_concurrent_sync_rejected (st : ComponentState) (env : SyncEnv)
    (h : st.syncing = true) :
    clickSyncNow st env = ([], st) := by
  simp [clickSyncNow, h]

/-- Witness for C7 at the concrete busy state. -/
theorem C7_concurrent_sync_rejected_witness :
    { st0 with syncing := true }.syncing = true ∧
    clickSyncNow { st0 with syncing := true } envOk = ([], { st0 with syncing := true }) :=
  ⟨rfl, C7_concurrent_sync_rejected { st0 with syncing := true } envOk rfl⟩

/-- C8: every invocation of `handleSync` that can occur (the button is
disabled while `syncing` is true, so at entry `syncing` is false; and on
any non-empty seed phrase the `finally` block runs unconditionally)
terminates with the `syncing` flag false, on the success path and on every
error path alike. -/
theorem C8_syncing_cleared (st : ComponentState) (env : SyncEnv)
    (h : st.syncing = false ∨ st.seedPhrase ≠ "") :
    (handleSync st env).2.syncing = false := by
  by_cases hs : st.seedPhrase = ""
  · rcases h with h | h
    · simpa [handleSync, hs]
    · exact absurd hs h
  · simp [handleSync, hs]

/-- Witness for C8: a failing environment (unreachable server) still
clears the flag. -/
theorem C8_syncing_cleared_witness :
    ({ st0 with seedPhrase := "alpha beta" }.syncing = false ∨
      { st0 with seedPhrase := "alpha beta" }.seedPhrase ≠ "") ∧
    (handleSync { st0 with seedPhrase := "alpha beta" }
      { envOk with healthRes := Except.ok false }).2.syncing = false :=
  ⟨Or.inl rfl,
   C8_syncing_cleared { st0 with seedPhrase := "alpha beta" }
     { envOk with healthRes := Except.ok false } (Or.inl rfl)⟩

/-- C9: with an empty seed phrase, `handleSync` only shows the
"Please enter a seed phrase" error: the trace contains no crypto
initialization, no network call and no settings write, and the component
state is returned unchanged. -/
theorem C9_empty_seed_only_notifies (st : ComponentState) (env : SyncEnv)
    (h : st.seedPhrase = "") :
    (handleSync st env).1 = [Event.notifyError "Error" "Please enter a seed phrase"] ∧
    (handleSync st env).2 = st := by
  simp [handleSync, h]

/-- Witness for C9 at the concrete empty-seed state. -/
theorem C9_empty_seed_only_notifies_witness :
    st0.seedPhrase = "" ∧
    (handleSync st0 envOk).1 = [Event.notifyError "Error" "Please enter a seed phrase"] ∧
    (handleSync st0 envOk).2 = st0 := by
  refine ⟨rfl, ?_, ?_⟩
  · exact (C9_empty_seed_only_notifies st0 envOk rfl).1
  · exact (C9_empty_seed_only_notifies st0 envOk rfl).2

/-- C10: every change of the seed-phrase input to a string `v` — any
string, including partial or invalid phrases — immediately persists a
settings object whose `seed_phrase` is exactly `v` (no validation guards
the write), updates the in-memory seed phrase to `v`, and carries the
stored `sync_interval` over. -/
theorem C10_seed_change_persists (st : ComponentState)
    (stored : SyncSettingsType) (v : String) :
    ((onSeedPhraseChange st stored v).2).seed_phrase = v ∧
    ((onSeedPhraseChange st stored v).1).seedPhrase = v ∧
    ((onSeedPhraseChange st stored v).2).sync_interval = stored.sync_interval :=
  ⟨rfl, rfl, rfl⟩

/-- C1: the selected server URL is always a default server or a member of
the custom-server set — the invariant is preserved by each of the three
operations that change the selection or the custom-server set
(`handleAddServer`, `handleRemoveServer`, `handleServerChange`, the last
invoked by the `Select` with a value drawn from its own options list). -/
theorem C1_selection_invariant_preserved (st : ComponentState)
    (stored : SyncSettingsType) (op : SettingsOp)
    (hinv : serverInvariant st) (hop : opOk st op) :
    serverInvariant (applyOp st stored op) := by
  cases op with
  | addServer =>
    by_cases h1 : st.isValidUrl = false
    · simpa [applyOp, handleAddServer, h1] using hinv
    · by_cases h2 : st.newServerUrl ∈ st.customServers ∨
          st.newServerUrl ∈ defaultServerValues
      · simpa [applyOp, handleAddServer, h1, h2] using hinv
      · simp [applyOp, handleAddServer, h1, h2, serverInvariant]
  | removeServer url =>
    by_cases h : st.selectedServer = url
    · have : (applyOp st stored (SettingsOp.removeServer url)).selectedServer =
          (DEFAULT_SERVERS.headD ("", "")).2 := by
        simp [applyOp, handleRemoveServer, h]
      refine Or.inl ?_
      rw [this]
      decide
    · rcases hinv with hd | hc
      · refine Or.inl ?_
        simpa [applyOp, handleRemoveServer, h] using hd
      · refine Or.inr ?_
        simp [applyOp, handleRemoveServer, h, List.mem_filter]
        exact hc
  | changeServer value =>
    cases value with
    | none => simpa [applyOp, handleServerChange] using hinv
    | some v =>
      have : (applyOp st stored (SettingsOp.changeServer (some v))) =
          { st with selectedServer := v } := by
        simp [applyOp, handleServerChange]
      rw [serverInvariant, this]
      exact List.mem_append.mp hop

/-- Witness for C1: selecting the local default server from the options
list of a state that satisfies the invariant. -/
theorem C1_selection_invariant_preserved_witness :
    serverInvariant st0 ∧
    opOk st0 (SettingsOp.changeServer (some "http://localhost:3222")) ∧
    serverInvariant (applyOp st0 stored0
      (SettingsOp.changeServer (some "http://localhost:3222"))) :=
  ⟨by decide, by decide,
   C1_selection_invariant_preserved st0 stored0
     (SettingsOp.changeServer (some "http://localhost:3222"))
     (by decide) (by decide)⟩

/-- C2: after an input string `v` is typed into the add-server field
(`handleUrlChange` records the platform parser's verdict),
`handleAddServer` appends `v` to the custom-server set iff `v` parses as a
well-formed absolute URL and is not already among the custom or default
servers; when rejected (invalid or duplicate), the custom-server set and
the selected server are unchanged. -/
theorem C2_add_server_iff (urlOk : String → Bool) (st : ComponentState)
    (stored : SyncSettingsType) (v : String) :
    ((handleAddServer (handleUrlChange urlOk v st) stored).1.customServers =
        st.customServers ++ [v] ↔
      (urlOk v = true ∧ v ∉ st.customServers ∧ v ∉ defaultServerValues)) ∧
    (¬ (urlOk v = true ∧ v ∉ st.customServers ∧ v ∉ defaultServerValues) →
      (handleAddServer (handleUrlChange urlOk v st) stored).1.customServers =
        st.customServers ∧
      (handleAddServer (handleUrlChange urlOk v st) stored).1.selectedServer =
        st.selectedServer) := by
  by_cases hv : urlOk v = true
  · by_cases hdup : v ∈ st.customServers ∨ v ∈ defaultServerValues
    · have hres : (handleAddServer (handleUrlChange urlOk v st) stored).1 =
          handleUrlChange urlOk v st := by
        simp [handleAddServer, handleUrlChange, validateUrl, hv, hdup]
      refine ⟨iff_of_false ?_ ?_, fun _ => ?_⟩
      · rw [hres]
        intro hEq
        have hlen := congrArg List.length hEq
        simp [handleUrlChange] at hlen
      · rintro ⟨-, hnc, hnd⟩
        rcases hdup with hd | hd
        · exact hnc hd
        · exact hnd hd
      · rw [hres]
        exact ⟨rfl, rfl⟩
    · have hnc := (not_or.mp hdup).1
      have hnd := (not_or.mp hdup).2
      have hres : (handleAddServer (handleUrlChange urlOk v st) stored).1.customServers =
          st.customServers ++ [v] := by
        simp [handleAddServer, handleUrlChange, validateUrl, hv, hnc, hnd]
      exact ⟨iff_of_true hres ⟨hv, hnc, hnd⟩,
             fun hcon => absurd ⟨hv, hnc, hnd⟩ hcon⟩
  · have hvf : urlOk v = false := by
      revert hv
      cases urlOk v <;> simp
    have hres : (handleAddServer (handleUrlChange urlOk v st) stored).1 =
        handleUrlChange urlOk v st := by
      simp [handleAddServer, handleUrlChange, validateUrl, hvf]
    refine ⟨iff_of_false ?_ ?_, fun _ => ?_⟩
    · rw [hres]
      intro hEq
      have hlen := congrArg List.length hEq
      simp [handleUrlChange] at hlen
    · rintro ⟨hvt, -, -⟩
      exact hv hvt
    · rw [hres]
      exact ⟨rfl, rfl⟩

/-- Witness for C2: typing a fresh URL the parser accepts into the
quiescent state. -/
theorem C2_add_server_iff_witness :
    ((handleAddServer
        (handleUrlChange (fun s => s = "https://example.com") "https://example.com" st0)
        stored0).1.customServers =
      st0.customServers ++ ["https://example.com"] ↔
      ((fun s : String => decide (s = "https://example.com")) "https://example.com" = true ∧
        "https://example.com" ∉ st0.customServers ∧
        "https://example.com" ∉ defaultServerValues)) ∧
    (¬ ((fun s : String => decide (s = "https://example.com")) "https://example.com" = true ∧
        "https://example.com" ∉ st0.customServers ∧
        "https://example.com" ∉ defaultServerValues) →
      (handleAddServer
        (handleUrlChange (fun s => s = "https://example.com") "https://example.com" st0)
        stored0).1.customServers = st0.customServers ∧
      (handleAddServer
        (handleUrlChange (fun s => s = "https://example.com") "https://example.com" st0)
        stored0).1.selectedServer = st0.selectedServer) :=
  C2_add_server_iff (fun s => s = "https://example.com") st0 stored0 "https://example.com"

/-- C3: when the health check reports the server unhealthy, the cycle
fails with the unreachable-server reason: the trace is exactly the crypto
initialization, the health-check call, and the "Server ... is not healthy"
error notification — so `syncWithServer` is never called and the post-sync
settings save never runs — and the component state is unchanged apart from
the `syncing` round-trip. -/
theorem C3_unhealthy_server_aborts (st : ComponentState) (env : SyncEnv)
    (hseed : st.seedPhrase ≠ "")
    (hinit : env.initCryptoRes = Except.ok ())
    (hhealth : env.healthRes = Except.ok false) :
    (handleSync st env).1 =
      [Event.initCrypto st.seedPhrase,
       Event.healthCheckCall st.selectedServer,
       Event.notifyError "Error"
         ("Server " ++ st.selectedServer ++ " is not healthy")] ∧
    (handleSync st env).2 = { st with syncing := false } := by
  constructor <;>
    simp [handleSync, syncBody, hseed, hinit, hhealth, syncErrorMessage]

/-- Witness for C3: a concrete seed phrase and an environment whose health
check returns false. -/
theorem C3_unhealthy_server_aborts_witness :
    ({ st0 with seedPhrase := "alpha beta" }.seedPhrase ≠ "" ∧
      ({ envOk with healthRes := Except.ok false } : SyncEnv).initCryptoRes = Except.ok () ∧
      ({ envOk with healthRes := Except.ok false } : SyncEnv).healthRes = Except.ok false) ∧
    (handleSync { st0 with seedPhrase := "alpha beta" }
        { envOk with healthRes := Except.ok false }).1 =
      [Event.initCrypto "alpha beta",
       Event.healthCheckCall "https://notes-sync.0xgingi.com",
       Event.notifyError "Error"
         ("Server " ++ "https://notes-sync.0xgingi.com" ++ " is not healthy")] ∧
    (handleSync { st0 with seedPhrase := "alpha beta" }
        { envOk with healthRes := Except.ok false }).2 =
      { st0 with seedPhrase := "alpha beta", syncing := false } :=
  ⟨⟨by decide, rfl, rfl⟩,
   (C3_unhealthy_server_aborts { st0 with seedPhrase := "alpha beta" }
      { envOk with healthRes := Except.ok false } (by decide) rfl rfl).1,
   (C3_unhealthy_server_aborts { st0 with seedPhrase := "alpha beta" }
      { envOk with healthRes := Except.ok false } (by decide) rfl rfl).2⟩

/-- C5: the health check strictly precedes the pull/merge/push work:
whenever the trace of a sync invocation contains a `syncWithServer` call,
the health check completed with result `true`, the first three trace
events are exactly the crypto initialization, then the health-check call,
then the one `syncWithServer` call on the selected server, and no further
`syncWithServer` call occurs later in the trace. -/
theorem C5_health_check_precedes_sync (st : ComponentState) (env : SyncEnv)
    (s : String)
    (hmem : Event.syncWithServerCall s ∈ (handleSync st env).1) :
    env.healthRes = Except.ok true ∧ s = st.selectedServer ∧
    (handleSync st env).1.take 3 =
      [Event.initCrypto st.seedPhrase,
       Event.healthCheckCall st.selectedServer,
       Event.syncWithServerCall st.selectedServer] ∧
    Event.syncWithServerCall s ∉ (handleSync st env).1.drop 3 := by
  by_cases hs : st.seedPhrase = ""
  · simp [handleSync, hs] at hmem
  · rcases env with ⟨ic, h, sy, sv, os⟩
    rcases ic with e1 | u1
    · simp [handleSync, syncBody, hs] at hmem
    · rcases h with e2 | healthy
      · simp [handleSync, syncBody, hs] at hmem
      · cases healthy
        · simp [handleSync, syncBody, hs] at hmem
        · rcases sy with e3 | u3 <;> rcases sv with e4 | u4 <;>
            rcases os with _ | (e5 | u5) <;>
            simp_all [handleSync, syncBody, syncErrorMessage]

/-- Witness for C5 in the all-success environment. -/
theorem C5_health_check_precedes_sync_witness :
    Event.syncWithServerCall "https://notes-sync.0xgingi.com"
      ∈ (handleSync { st0 with seedPhrase := "alpha beta" } envOk).1 ∧
    (envOk.healthRes = Except.ok true ∧
      "https://notes-sync.0xgingi.com" =
        { st0 with seedPhrase := "alpha beta" }.selectedServer ∧
      (handleSync { st0 with seedPhrase := "alpha beta" } envOk).1.take 3 =
        [Event.initCrypto "alpha beta",
         Event.healthCheckCall "https://notes-sync.0xgingi.com",
         Event.syncWithServerCall "https://notes-sync.0xgingi.com"] ∧
      Event.syncWithServerCall "https://notes-sync.0xgingi.com"
        ∉ (handleSync { st0 with seedPhrase := "alpha beta" } envOk).1.drop 3) :=
  ⟨by decide,
   C5_health_check_precedes_sync { st0 with seedPhrase := "alpha beta" } envOk
     "https://notes-sync.0xgingi.com" (by decide)⟩

/-- The component state for the C6 counterexample: a non-empty seed phrase
over the quiescent state. -/
def stC6 : ComponentState := { st0 with seedPhrase := "alpha beta" }

/-- Environment for the C6 counterexample: `syncWithServer` rejects with a
low-level network `Error`. -/
def envC6 : SyncEnv :=
  { envOk with
      syncRes := Except.error (JsThrown.jsError "NetworkError: connection reset") }

/-- Counterexample to C6 as stated: the low-level error thrown by
`syncWithServer` carries the message "NetworkError: connection reset", and
`handleSync` displays exactly that raw message to the user in its failure
notification (`error instanceof Error ? error.message : ...`), so a raw
low-level error message does reach the user. -/
theorem C6_counterexample :
    envC6.syncRes = Except.error (JsThrown.jsError "NetworkError: connection reset") ∧
    Event.notifyError "Error" "NetworkError: connection reset"
      ∈ (handleSync stC6 envC6).1 := by
  exact ⟨rfl, by decide⟩

/-- C6 amended: whenever a sync cycle fails, the user-visible outcome is a
single structured error notification appended to the trace — its message
is the thrown error's own message when the failure is a JS `Error` (so
low-level error messages are displayed verbatim) and the generic "Failed
to sync notes" otherwise — and no success notification is shown. -/
theorem C6_failure_reported_as_notification (st : ComponentState)
    (env : SyncEnv) (e : JsThrown) (hseed : st.seedPhrase ≠ "")
    (hfail : (syncBody { st with syncing := true } env).2 = some e) :
    (handleSync st env).1 =
      (syncBody { st with syncing := true } env).1 ++
        [Event.notifyError "Error" (syncErrorMessage e)] ∧
    Event.notifySuccess "Success" "Notes synced successfully"
      ∉ (handleSync st env).1 := by
  have hsplit : (handleSync st env).1 =
      (syncBody { st with syncing := true } env).1 ++
        [Event.notifyError "Error" (syncErrorMessage e)] := by
    simp [handleSync, hseed, hfail]
  refine ⟨hsplit, ?_⟩
  rw [hsplit]
  simp only [List.mem_append, List.mem_singleton, not_or]
  refine ⟨?_, by simp⟩
  rcases env with ⟨ic, h, sy, sv, os⟩
  rcases ic with e1 | u1
  · simp [syncBody]
  · rcases h with e2 | healthy
    · simp [syncBody]
    · cases healthy
      · simp [syncBody]
      · rcases sy with e3 | u3
        · simp [syncBody]
        · rcases sv with e4 | u4
          · simp [syncBody]
          · rcases os with _ | (e5 | u5)
            · simp [syncBody] at hfail
            · simp [syncBody]
            · simp [syncBody] at hfail

/-- Witness for the amended C6 at the counterexample input. -/
theorem C6_failure_reported_as_notification_witness :
    (stC6.seedPhrase ≠ "" ∧
      (syncBody { stC6 with syncing := true } envC6).2 =
        some (JsThrown.jsError "NetworkError: connection reset")) ∧
    (handleSync stC6 envC6).1 =
      (syncBody { stC6 with syncing := true } envC6).1 ++
        [Event.notifyError "Error"
          (syncErrorMessage (JsThrown.jsError "NetworkError: connection reset"))] ∧
    Event.notifySuccess "Success" "Notes synced successfully"
      ∉ (handleSync stC6 envC6).1 :=
  ⟨⟨by decide, rfl⟩,
   (C6_failure_reported_as_notification stC6 envC6
      (JsThrown.jsError "NetworkError: connection reset") (by decide) rfl).1,
   (C6_failure_reported_as_notification stC6 envC6
      (JsThrown.jsError "NetworkError: connection reset") (by decide) rfl).2⟩
